import Mathlib

/-!
Verification of the fleet-dashboard reconciliation core
(`fleet_dashboard.py` / `fleet_dashboard_auto.py`).

The Python functions `clean_excel_data`, `find_excel_match`,
`extract_excel_data`, `calculate_days_remaining`, `get_alert_status` and
`process_combined_data` are shallowly embedded below under the same names.
Strings are Lean `String`s; pandas cells are `Option String` (`none` models
NaN); pandas row labels are carried explicitly (boolean row filtering keeps
the original labels, while `iloc` is positional); Python exceptions are
modelled by `Option`-valued results (`none` = the call raises); the current
wall-clock time is an explicit `Instant` parameter (date plus seconds past
midnight); real arithmetic is modelled by exact rationals.
-/

set_option autoImplicit false

/-! ### Character / digit-string utilities -/

/-- Numeric value of a decimal digit character. -/
def digitVal (c : Char) : Nat := c.toNat - 48

/-- Value of a list of decimal digit characters, most significant first. -/
def natOfDigits (l : List Char) : Nat :=
  l.foldl (fun a c => 10 * a + digitVal c) 0

/-- Two-digit zero-padded decimal rendering (CPython `strftime` `%m`/`%d`). -/
def pad2 (n : Nat) : List Char :=
  [Nat.digitChar (n / 10), Nat.digitChar (n % 10)]

/-- Four-digit decimal rendering (CPython `strftime` `%Y` for years ≥ 1000,
the only range our theorems use). -/
def pad4 (n : Nat) : List Char :=
  [Nat.digitChar (n / 1000), Nat.digitChar (n / 100 % 10),
   Nat.digitChar (n / 10 % 10), Nat.digitChar (n % 10)]

/-- Split a character list at every occurrence of `sep` (the separators are
dropped; `n` separators yield `n+1` pieces). -/
def splitOnChar (sep : Char) : List Char → List (List Char)
  | [] => [[]]
  | c :: cs =>
    match splitOnChar sep cs with
    | [] => [[c]]
    | p :: ps => if c = sep then [] :: p :: ps else (c :: p) :: ps

/-- Boolean substring-anchored-at-front test. -/
def isPrefixOfChars : List Char → List Char → Bool
  | [], _ => true
  | _ :: _, [] => false
  | a :: as, b :: bs => a = b && isPrefixOfChars as bs

/-- Boolean substring test, `containsSub sub hay` models Python `sub in hay`
for nonempty `sub`. -/
def containsSub (sub : List Char) : List Char → Bool
  | [] => decide (sub = [])
  | c :: t => isPrefixOfChars sub (c :: t) || containsSub sub t

/-- Python `str.upper()` on the ASCII names appearing in the spreadsheet. -/
def pyUpperData (l : List Char) : List Char := l.map Char.toUpper

/-! ### Dates and instants -/

/-- A calendar date as constructed by `datetime.strptime` (time fields all
zero). -/
structure Date where
  year : Nat
  month : Nat
  day : Nat
deriving DecidableEq, Repr

/-- Gregorian leap-year rule (as used by `datetime`). -/
def isLeap (y : Nat) : Bool := y % 4 = 0 && (y % 100 ≠ 0 || y % 400 = 0)

/-- Length of a month in the proleptic Gregorian calendar. -/
def daysInMonth (y m : Nat) : Nat :=
  if m = 2 then (if isLeap y then 29 else 28)
  else if m = 4 ∨ m = 6 ∨ m = 9 ∨ m = 11 then 30
  else 31

/-- The bounds `datetime` enforces when a date is constructed
(`MINYEAR = 1`, `MAXYEAR = 9999`, day valid for the month). -/
def validYMD (y m d : Nat) : Bool :=
  1 ≤ y && y ≤ 9999 && 1 ≤ m && m ≤ 12 && 1 ≤ d && d ≤ daysInMonth y m

def Date.valid (dt : Date) : Prop := validYMD dt.year dt.month dt.day = true

instance (dt : Date) : Decidable dt.valid := by
  unfold Date.valid; infer_instance

/-- Howard Hinnant's `days_from_civil`: days from 1970-01-01 to the given
Gregorian date (the day-difference `datetime` subtraction computes). -/
def daysFromCivil (dt : Date) : Int :=
  let y : Int := if dt.month ≤ 2 then (dt.year : Int) - 1 else (dt.year : Int)
  let m : Int := (dt.month : Int)
  let d : Int := (dt.day : Int)
  let era : Int := Int.fdiv y 400
  let yoe : Int := y - era * 400
  let mp : Int := if m ≤ 2 then m + 9 else m - 3
  let doy : Int := Int.fdiv (153 * mp + 2) 5 + d - 1
  let doe : Int := 365 * yoe + Int.fdiv yoe 4 - Int.fdiv yoe 100 + doy
  era * 146097 + doe - 719468

/-- `datetime.now()`: a calendar date plus the number of seconds already
elapsed since that date's midnight (`0 ≤ sec < 86400` for a real instant;
sub-second precision only sharpens the same floor computation). -/
structure Instant where
  date : Date
  sec : Nat
deriving DecidableEq, Repr

/-- `(target_date - today).days` where `target_date` is `D` at midnight and
`today` is the instant `now`: Python `timedelta.days` floors. -/
def pyDateDiffDays (D : Date) (now : Instant) : Int :=
  Int.fdiv ((daysFromCivil D - daysFromCivil now.date) * 86400 - (now.sec : Int)) 86400

/-! ### `datetime.strptime` for the four candidate formats -/

/-- One `strptime` numeric field: nonempty, all digits, at most `maxLen`
digits (`%m`/`%d` compile to `\d{1,2}`, `%Y` to `\d{1,4}`). -/
def fieldOK (maxLen : Nat) (p : List Char) : Bool :=
  decide (p ≠ []) && decide (p.length ≤ maxLen) && p.all Char.isDigit

/-- Full-match parse of `a sep b sep c` with per-field digit limits;
returns the three field values. -/
def strptime3 (sep : Char) (l1 l2 l3 : Nat) (s : List Char) :
    Option (Nat × Nat × Nat) :=
  match splitOnChar sep s with
  | [a, b, c] =>
    if fieldOK l1 a && fieldOK l2 b && fieldOK l3 c then
      some (natOfDigits a, natOfDigits b, natOfDigits c)
    else none
  | _ => none

/-- Date construction at the end of `strptime` (raises, i.e. `none`, when
out of range). -/
def mkDate (y m d : Nat) : Option Date :=
  if validYMD y m d then some ⟨y, m, d⟩ else none

/-- The four format strings tried by `calculate_days_remaining`, in order. -/
inductive DateFormat where
  | mdySlash   -- '%m/%d/%Y'
  | isoYMD     -- '%Y-%m-%d'
  | dmyDot     -- '%d.%m.%Y'
  | mdyDash    -- '%m-%d-%Y'
deriving DecidableEq, Repr

/-- `datetime.strptime(s, fmt)` for the four formats. -/
def strptimeFmt : DateFormat → List Char → Option Date
  | .mdySlash, s =>
    match strptime3 '/' 2 2 4 s with
    | some (m, d, y) => mkDate y m d
    | none => none
  | .isoYMD, s =>
    match strptime3 '-' 4 2 2 s with
    | some (y, m, d) => mkDate y m d
    | none => none
  | .dmyDot, s =>
    match strptime3 '.' 2 2 4 s with
    | some (d, m, y) => mkDate y m d
    | none => none
  | .mdyDash, s =>
    match strptime3 '-' 2 2 4 s with
    | some (m, d, y) => mkDate y m d
    | none => none

/-- `datetime.strftime` output for the four formats (zero-padded fields;
`%Y` rendering matches CPython for years ≥ 1000). -/
def strftimeFmt : DateFormat → Date → List Char
  | .mdySlash, dt => pad2 dt.month ++ '/' :: (pad2 dt.day ++ '/' :: pad4 dt.year)
  | .isoYMD, dt => pad4 dt.year ++ '-' :: (pad2 dt.month ++ '-' :: pad2 dt.day)
  | .dmyDot, dt => pad2 dt.day ++ '.' :: (pad2 dt.month ++ '.' :: pad4 dt.year)
  | .mdyDash, dt => pad2 dt.month ++ '-' :: (pad2 dt.day ++ '-' :: pad4 dt.year)

/-- The `for fmt in date_formats` loop: first format that parses wins. -/
def tryFormats (s : List Char) : Option Date :=
  match strptimeFmt .mdySlash s with
  | some dt => some dt
  | none =>
  match strptimeFmt .isoYMD s with
  | some dt => some dt
  | none =>
  match strptimeFmt .dmyDot s with
  | some dt => some dt
  | none => strptimeFmt .mdyDash s

/-- `calculate_days_remaining(date_value)`: `none` input models a
null-equivalent (`None`/NaN) argument, for which `pd.isna` is true; an empty
string is rejected by `not date_value`; otherwise the four formats are tried
and every failure is absorbed to `None` (never an exception). -/
def calculate_days_remaining (date_value : Option String) (now : Instant) :
    Option Int :=
  match date_value with
  | none => none
  | some s =>
    if s.data = [] then none
    else
      match tryFormats s.data with
      | some target => some (pyDateDiffDays target now)
      | none => none

/-- `get_alert_status(days_remaining)`. -/
def get_alert_status (days_remaining : Option Int) : String :=
  match days_remaining with
  | none => "No Data"
  | some d =>
    if d < 0 then "OVERDUE"
    else if d ≤ 30 then "CRITICAL"
    else if d ≤ 60 then "WARNING"
    else "OK"

/-! ### The spreadsheet table model

A pandas `DataFrame` produced by `pd.read_csv` and then cleaned: an ordered
list of named columns plus the row labels.  `read_csv` yields labels
`0, 1, …, n-1`; boolean row filtering (as in `clean_excel_data`) keeps the
surviving rows' *original* labels, while `iloc` indexes *positionally* —
both behaviours are modelled faithfully. -/

/-- A cell: `none` is NaN/missing. -/
abbrev Cell := Option String

/-- `pandas` `astype(str)` stringification of a cell (NaN prints as
`"nan"`). -/
def cellAstype : Cell → String
  | none => "nan"
  | some s => s

/-- `str(row[col]) if pd.notna(row[col]) else ''` used by
`extract_excel_data`. -/
def cellNotnaStr : Cell → String
  | none => ""
  | some s => s

structure Column where
  name : String
  cells : List Cell
deriving DecidableEq, Repr

structure Table where
  cols : List Column
  labels : List Nat
deriving DecidableEq, Repr

/-- Positional row count. -/
def Table.nRows (t : Table) : Nat := t.labels.length

/-- Every column has exactly one cell per row label. -/
def Table.wf (t : Table) : Prop :=
  ∀ c ∈ t.cols, c.cells.length = t.labels.length

/-- pandas `df.empty`: true when either axis has length zero. -/
def Table.isEmptyT (t : Table) : Bool := t.cols.isEmpty || t.labels.isEmpty

/-! ### `clean_excel_data` -/

/-- Keep exactly the entries of the second list whose mask bit is `true`
(pandas boolean-mask row selection). -/
def maskFilter {α : Type} : List Bool → List α → List α
  | true :: bs, x :: xs => x :: maskFilter bs xs
  | false :: bs, _ :: xs => maskFilter bs xs
  | _, _ => []

/-- Apply a row mask to every column and to the labels. -/
def maskTable (m : List Bool) (t : Table) : Table :=
  ⟨t.cols.map (fun c => { c with cells := maskFilter m c.cells }),
   maskFilter m t.labels⟩

/-- Elementwise `df[first_col] != filter_val` (NaN compares unequal, so NaN
rows are kept). -/
def neLit (lit : String) (c : Cell) : Bool := decide (c ≠ some lit)

/-- `df = df[df[first_col] != filter_val]` for one exclusion literal: the
mask comes from the current first column. -/
def filterByLiteral (lit : String) (t : Table) : Table :=
  match t.cols with
  | [] => t
  | c0 :: _ => maskTable (c0.cells.map (neLit lit)) t

/-- `df.columns[0].startswith('Unnamed')` guarded first-column drop. -/
def unnamedShift (t : Table) : Table :=
  match t.cols with
  | c :: rest =>
    if isPrefixOfChars "Unnamed".data c.name.data then { t with cols := rest } else t
  | [] => t

/-- Index of the first column whose upper-cased name contains `"VIN"`. -/
def vinIndexAux : List Column → Option Nat
  | [] => none
  | c :: cs =>
    if containsSub "VIN".data (pyUpperData c.name.data) then some 0
    else (vinIndexAux cs).map (· + 1)

/-- `df = df.iloc[:, :vin_index + 1]` when a VIN column exists. -/
def vinTrim (t : Table) : Table :=
  match vinIndexAux t.cols with
  | some i => { t with cols := t.cols.take (i + 1) }
  | none => t

/-- The four junk-row literals, in the order the Python loop removes them. -/
def filters_to_remove : List String := ["OLD", "DKD", "GNS", "SOLD"]

/-- `clean_excel_data(df)`.  Result `none` models the uncaught `IndexError`
raised by `first_col = df.columns[0]` when the only column was the dropped
`Unnamed` one. -/
def clean_excel_data (t : Table) : Option Table :=
  if t.isEmptyT then some t
  else
    match (unnamedShift t).cols with
    | [] => none
    | _ :: _ =>
      some (vinTrim (filters_to_remove.foldl (fun acc lit => filterByLiteral lit acc)
        (unnamedShift t)))

/-! ### `find_excel_match` -/

/-- Candidate column for phase 1: name contains `"TRUCK"` or `"ID"`
case-insensitively. -/
def isCand1 (name : String) : Bool :=
  containsSub "TRUCK".data (pyUpperData name.data) ||
  containsSub "ID".data (pyUpperData name.data)

/-- Candidate column for phase 2: name contains `"VIN"` case-insensitively. -/
def isCandVIN (name : String) : Bool :=
  containsSub "VIN".data (pyUpperData name.data)

/-- `matches.index[0]`: label of the first row whose stringified cell equals
the target. -/
def firstMatchLabel (target : String) : List Cell → List Nat → Option Nat
  | c :: cs, l :: ls =>
    if cellAstype c = target then some l else firstMatchLabel target cs ls
  | _, _ => none

/-- One `for col in excel_df.columns` phase: every candidate column is
tried in table order; the first candidate column that contains a match
returns that match's row label. -/
def phaseScan (pred : String → Bool) (target : String) (labels : List Nat) :
    List Column → Option Nat
  | [] => none
  | c :: cs =>
    if pred c.name then
      match firstMatchLabel target c.cells labels with
      | some l => some l
      | none => phaseScan pred target labels cs
    else phaseScan pred target labels cs

/-- `find_excel_match(vehicle_name, samsara_vin, excel_df)`. -/
def find_excel_match (vehicle_name samsara_vin : String) (df : Table) :
    Option Nat :=
  match phaseScan isCand1 vehicle_name df.labels df.cols with
  | some l => some l
  | none =>
    if samsara_vin ≠ "" then phaseScan isCandVIN samsara_vin df.labels df.cols
    else none

/-! ### `extract_excel_data` -/

structure ExcelData where
  status : String
  annual_date : String
  pm_date : String
  pm_insp_date : String
deriving DecidableEq, Repr

def ExcelData.init : ExcelData := ⟨"", "", "", ""⟩

/-- The `if/elif` chain of `extract_excel_data` for one column. -/
def updateRole (acc : ExcelData) (name : String) (c : Cell) : ExcelData :=
  let u := pyUpperData name.data
  if containsSub "STATUS".data u then { acc with status := cellNotnaStr c }
  else if containsSub "ANNUAL".data u then { acc with annual_date := cellNotnaStr c }
  else if containsSub "PM".data u && containsSub "DATE".data u then
    { acc with pm_date := cellNotnaStr c }
  else if containsSub "PM".data u && containsSub "INSP".data u then
    { acc with pm_insp_date := cellNotnaStr c }
  else acc

/-- `extract_excel_data(row_index, excel_df)`.  `row = excel_df.iloc[row_index]`
is positional and raises `IndexError` (modelled `none`) when out of bounds. -/
def extract_excel_data (row_index : Nat) (df : Table) : Option ExcelData :=
  if row_index < df.nRows then
    some (df.cols.foldl
      (fun acc c => updateRole acc c.name (c.cells.getD row_index none))
      ExcelData.init)
  else none

/-! ### `process_combined_data` -/

/-- One Samsara metric entry: `{'value': …, 'time': …}` (either key may be
absent; `value` may be 0, which Python treats as falsy). -/
structure Reading where
  value : Option ℚ
  time : String
deriving DecidableEq, Repr

/-- One Samsara vehicle record, with the fields the pipeline reads
(`externalIds` already resolved with `''` defaults). -/
structure VehicleRec where
  id : String
  name : String
  vin : String
  serial : String
  obd : Option Reading
  gps : Option Reading
deriving DecidableEq, Repr

def readingValue (r : Option Reading) : Option ℚ := r.bind (·.value)

/-- `obd_data.get('time', '') if obd_data else ''`. -/
def readingTime (r : Option Reading) : String :=
  match r with
  | some rr => rr.time
  | none => ""

/-- Floor of a rational (its numerator floor-divided by its positive
denominator). -/
def pyFloor (q : ℚ) : Int := Int.fdiv q.num (q.den : Int)

/-- Python `round(x)` (banker's rounding: ties go to the even integer). -/
def pyRound (q : ℚ) : Int :=
  let f := pyFloor q
  let r := q - (f : ℚ)
  if r < 1 / 2 then f
  else if 1 / 2 < r then f + 1
  else if f % 2 = 0 then f else f + 1

/-- `int(round((value / 1609.34), 0)) if data.get('value') else 0`. -/
def milesOf (r : Option Reading) : Int :=
  match readingValue r with
  | some q => if q = 0 then 0 else pyRound (q / ((160934 : ℚ) / 100))
  | none => 0

/-- One row of the combined output `DataFrame`. -/
structure Combined where
  Vehicle_ID : String
  Vehicle_Name : String
  VIN : String
  Serial : String
  OBD_Odometer_Miles : Int
  GPS_Distance_Miles : Int
  OBD_Last_Update : String
  GPS_Last_Update : String
  Status : String
  Annual_Date : String
  Annual_Days_Remaining : Option Int
  PM_Date : String
  PM_Days_Remaining : Option Int
  PM_Insp_Date : String
  PM_Insp_Days_Remaining : Option Int
  Annual_Alert : String
  PM_Alert : String
  PM_Insp_Alert : String
deriving DecidableEq, Repr

/-- The `combined_info` dictionary assembled for one matched vehicle. -/
def mkCombined (v : VehicleRec) (e : ExcelData) (now : Instant) : Combined :=
  let annual_days := calculate_days_remaining (some e.annual_date) now
  let pm_days := calculate_days_remaining (some e.pm_date) now
  let pm_insp_days := calculate_days_remaining (some e.pm_insp_date) now
  { Vehicle_ID := v.id
    Vehicle_Name := v.name
    VIN := v.vin
    Serial := v.serial
    OBD_Odometer_Miles := milesOf v.obd
    GPS_Distance_Miles := milesOf v.gps
    OBD_Last_Update := readingTime v.obd
    GPS_Last_Update := readingTime v.gps
    Status := e.status
    Annual_Date := e.annual_date
    Annual_Days_Remaining := annual_days
    PM_Date := e.pm_date
    PM_Days_Remaining := pm_days
    PM_Insp_Date := e.pm_insp_date
    PM_Insp_Days_Remaining := pm_insp_days
    Annual_Alert := get_alert_status annual_days
    PM_Alert := get_alert_status pm_days
    PM_Insp_Alert := get_alert_status pm_insp_days }

/-- Matching/extraction step for one vehicle: `some none` = no match (the
vehicle is skipped), `some (some c)` = record appended, `none` = the
`IndexError` from `extract_excel_data` propagates. -/
def combineOne (now : Instant) (df : Table) (v : VehicleRec) :
    Option (Option Combined) :=
  match find_excel_match v.name v.vin df with
  | none => some none
  | some idx => (extract_excel_data idx df).map (fun e => some (mkCombined v e now))

/-- The `for vehicle in samsara_data` loop. -/
def processAux (now : Instant) (df : Table) : List VehicleRec → Option (List Combined)
  | [] => some []
  | v :: vs =>
    match combineOne now df v with
    | none => none
    | some none => processAux now df vs
    | some (some c) => (processAux now df vs).map (c :: ·)

/-- `process_combined_data(samsara_data, excel_df)`. -/
def process_combined_data (now : Instant) (samsara_data : List VehicleRec)
    (excel_df : Table) : Option (List Combined) :=
  if samsara_data.isEmpty || excel_df.isEmptyT then some []
  else processAux now excel_df samsara_data

/-! ### Lemmas: `find_excel_match` scans every candidate column -/

lemma phaseScan_eq_none_iff (pred : String → Bool) (target : String)
    (labels : List Nat) (cols : List Column) :
    phaseScan pred target labels cols = none ↔
      ∀ c ∈ cols, pred c.name = true → firstMatchLabel target c.cells labels = none := by
  induction cols with
  | nil => simp [phaseScan]
  | cons c cs ih =>
    by_cases hp : pred c.name
    · cases hm : firstMatchLabel target c.cells labels with
      | none => simp [phaseScan, hp, hm, ih]
      | some l => simp [phaseScan, hp, hm]
    · simp [phaseScan, hp, ih]

/-- C1 (amended): both phases of `find_excel_match` fall through to later
candidate columns; the whole lookup yields `none` exactly when *no*
TRUCK/ID column contains a matching cell and (the VIN is empty or no VIN
column contains a matching cell). -/
theorem C1_match_scans_all_candidate_columns (name vin : String) (df : Table) :
    find_excel_match name vin df = none ↔
      ((∀ c ∈ df.cols, isCand1 c.name = true →
          firstMatchLabel name c.cells df.labels = none) ∧
       (vin = "" ∨ ∀ c ∈ df.cols, isCandVIN c.name = true →
          firstMatchLabel vin c.cells df.labels = none)) := by
  have P1 := phaseScan_eq_none_iff isCand1 name df.labels df.cols
  have P2 := phaseScan_eq_none_iff isCandVIN vin df.labels df.cols
  unfold find_excel_match
  rcases h1 : phaseScan isCand1 name df.labels df.cols with _ | l
  · have hA := P1.mp h1
    by_cases hv : vin = ""
    · simpa [hv] using hA
    · show (if vin ≠ "" then phaseScan isCandVIN vin df.labels df.cols else none)
          = none ↔ _
      rw [if_pos (show vin ≠ "" from hv), P2]
      constructor
      · exact fun hB => ⟨hA, Or.inr hB⟩
      · rintro ⟨-, h⟩
        exact h.resolve_left hv
  · have hA : ¬ ∀ c ∈ df.cols, isCand1 c.name = true →
        firstMatchLabel name c.cells df.labels = none := by
      intro h
      rw [P1.mpr h] at h1
      exact Option.noConfusion h1
    simp [hA]

/-- C1 counterexample: with two ID-like columns where only the second
contains the vehicle name, the leftmost candidate column has no matching
cell and yet phase 1 (and hence the whole lookup) succeeds — the claimed
"no fallback to a second ID-like column" is false of the code. -/
theorem C1_counterexample :
    isCand1 "UNIT ID" = true ∧
    firstMatchLabel "T1" [some "X"] [0] = none ∧
    phaseScan isCand1 "T1" [0]
      [⟨"UNIT ID", [some "X"]⟩, ⟨"SECOND ID", [some "T1"]⟩] = some 0 ∧
    find_excel_match "T1" ""
      ⟨[⟨"UNIT ID", [some "X"]⟩, ⟨"SECOND ID", [some "T1"]⟩], [0]⟩ = some 0 := by
  decide

/-- Witness for C1: the amended characterization applied at a concrete
table with a candidate column and no matching cell. -/
theorem C1_witness :
    find_excel_match "Z" "" ⟨[⟨"UNIT ID", [some "X"]⟩], [0]⟩ = none :=
  (C1_match_scans_all_candidate_columns "Z" "" _).mpr (by decide)

/-! ### C3: alert-tier boundaries -/

/-- C3: `get_alert_status` is total over integer-or-absent day offsets with
exactly the claimed boundaries: absent ↦ No Data, negative ↦ OVERDUE,
0..30 ↦ CRITICAL, 31..60 ↦ WARNING, > 60 ↦ OK. -/
theorem C3_classify_boundaries :
    get_alert_status none = "No Data" ∧
    (∀ n : Int, n < 0 → get_alert_status (some n) = "OVERDUE") ∧
    (∀ n : Int, 0 ≤ n → n ≤ 30 → get_alert_status (some n) = "CRITICAL") ∧
    (∀ n : Int, 31 ≤ n → n ≤ 60 → get_alert_status (some n) = "WARNING") ∧
    (∀ n : Int, 60 < n → get_alert_status (some n) = "OK") := by
  refine ⟨rfl, ?_, ?_, ?_, ?_⟩
  · intro n h; simp [get_alert_status, h]
  · intro n h1 h2; simp [get_alert_status, h2, show ¬ n < 0 by omega]
  · intro n h1 h2
    simp [get_alert_status, h2, show ¬ n < 0 by omega, show ¬ n ≤ 30 by omega]
  · intro n h
    simp [get_alert_status, show ¬ n < 0 by omega, show ¬ n ≤ 30 by omega,
      show ¬ n ≤ 60 by omega]

/-- Witness for C3 at the boundary inputs named by the claim. -/
theorem C3_witness :
    get_alert_status none = "No Data" ∧
    get_alert_status (some (-1)) = "OVERDUE" ∧
    get_alert_status (some 0) = "CRITICAL" ∧
    get_alert_status (some 30) = "CRITICAL" ∧
    get_alert_status (some 31) = "WARNING" ∧
    get_alert_status (some 60) = "WARNING" ∧
    get_alert_status (some 61) = "OK" :=
  ⟨C3_classify_boundaries.1,
   C3_classify_boundaries.2.1 (-1) (by decide),
   C3_classify_boundaries.2.2.1 0 (by decide) (by decide),
   C3_classify_boundaries.2.2.1 30 (by decide) (by decide),
   C3_classify_boundaries.2.2.2.1 31 (by decide) (by decide),
   C3_classify_boundaries.2.2.2.1 60 (by decide) (by decide),
   C3_classify_boundaries.2.2.2.2 61 (by decide)⟩

/-! ### C8: parsing is total and failures are absorbed -/

/-- C8: `calculate_days_remaining` never raises (it is a total function into
`Option`): a null-equivalent input, the empty string, and any string on
which all four formats fail are all absorbed to `None`, which `classify`
maps to "No Data". -/
theorem C8_parse_failures_absorbed :
    (∀ now, calculate_days_remaining none now = none) ∧
    (∀ now, calculate_days_remaining (some "") now = none) ∧
    (∀ s now, tryFormats s.data = none →
      calculate_days_remaining (some s) now = none) ∧
    get_alert_status none = "No Data" := by
  refine ⟨fun _ => rfl, fun _ => rfl, ?_, rfl⟩
  intro s now h
  by_cases hs : s.data = [] <;> simp [calculate_days_remaining, hs, h]

/-- Witness for C8 on a string matching none of the four formats. -/
theorem C8_witness :
    calculate_days_remaining none ⟨⟨2026, 10, 12⟩, 0⟩ = none ∧
    calculate_days_remaining (some "") ⟨⟨2026, 10, 12⟩, 0⟩ = none ∧
    calculate_days_remaining (some "next week") ⟨⟨2026, 10, 12⟩, 0⟩ = none :=
  ⟨C8_parse_failures_absorbed.1 _,
   C8_parse_failures_absorbed.2.1 _,
   C8_parse_failures_absorbed.2.2.1 "next week" _ (by decide)⟩

/-! ### C4: extraction role assignment -/

/-- The four semantic roles of `extract_excel_data`. -/
inductive Role where
  | status
  | annual
  | pmDate
  | pmInsp
deriving DecidableEq, Repr

/-- The unique role a column name feeds, determined by the *first* satisfied
predicate of the `if/elif` chain (`STATUS`, then `ANNUAL`, then
`PM`∧`DATE`, then `PM`∧`INSP`, case-insensitive substrings). -/
def roleOf (name : String) : Option Role :=
  let u := pyUpperData name.data
  if containsSub "STATUS".data u then some .status
  else if containsSub "ANNUAL".data u then some .annual
  else if containsSub "PM".data u && containsSub "DATE".data u then some .pmDate
  else if containsSub "PM".data u && containsSub "INSP".data u then some .pmInsp
  else none

/-- Projection of the extracted dictionary at a role. -/
def ExcelData.roleVal : ExcelData → Role → String
  | e, .status => e.status
  | e, .annual => e.annual_date
  | e, .pmDate => e.pm_date
  | e, .pmInsp => e.pm_insp_date

/-- The value the last qualifying column (in left-to-right table order)
assigns to a role at row `i`, or `""` when no column qualifies. -/
def roleCellStr (df : Table) (i : Nat) (r : Role) : String :=
  match df.cols.reverse.find? (fun c => roleOf c.name = some r) with
  | some c => cellNotnaStr (c.cells.getD i none)
  | none => ""

lemma roleVal_init (r : Role) : ExcelData.init.roleVal r = "" := by
  cases r <;> rfl

lemma roleVal_updateRole (acc : ExcelData) (name : String) (c : Cell) (r : Role) :
    (updateRole acc name c).roleVal r =
      if roleOf name = some r then cellNotnaStr c else acc.roleVal r := by
  by_cases hS : containsSub "STATUS".data (pyUpperData name.data) = true
  · cases r <;> simp [updateRole, roleOf, hS, ExcelData.roleVal]
  · by_cases hA : containsSub "ANNUAL".data (pyUpperData name.data) = true
    · cases r <;> simp [updateRole, roleOf, hS, hA, ExcelData.roleVal]
    · by_cases hPD : (containsSub "PM".data (pyUpperData name.data) &&
          containsSub "DATE".data (pyUpperData name.data)) = true
      · cases r <;> simp [updateRole, roleOf, hS, hA, hPD, ExcelData.roleVal]
      · by_cases hPI : (containsSub "PM".data (pyUpperData name.data) &&
            containsSub "INSP".data (pyUpperData name.data)) = true
        · cases r <;> simp [updateRole, roleOf, hS, hA, hPD, hPI, ExcelData.roleVal]
        · cases r <;> simp [updateRole, roleOf, hS, hA, hPD, hPI, ExcelData.roleVal]

lemma foldl_updateRole_roleVal (i : Nat) (r : Role) (cols : List Column) :
    ∀ acc : ExcelData,
      ((cols.foldl (fun acc c => updateRole acc c.name (c.cells.getD i none))
          acc).roleVal r) =
        match cols.reverse.find? (fun c => roleOf c.name = some r) with
        | some c => cellNotnaStr (c.cells.getD i none)
        | none => acc.roleVal r := by
  induction cols with
  | nil => intro acc; rfl
  | cons c cs ih =>
    intro acc
    rw [List.foldl_cons, ih, List.reverse_cons, List.find?_append]
    cases h : cs.reverse.find? (fun c => decide (roleOf c.name = some r)) with
    | some c' => simp [h]
    | none =>
      rw [roleVal_updateRole]
      by_cases hc : roleOf c.name = some r <;> simp [h, hc, Option.orElse, List.find?]

/-- C4: for every successfully extracted row, each column's cell feeds at
most the one role `roleOf` names (the first satisfied predicate of the
`if/elif` chain), and each role's final value comes from the *last*
qualifying column in left-to-right order (`""` when no column qualifies). -/
theorem C4_extract_last_qualifying_column_wins (df : Table) (i : Nat)
    (e : ExcelData) (he : extract_excel_data i df = some e) (r : Role) :
    e.roleVal r = roleCellStr df i r := by
  unfold extract_excel_data at he
  by_cases hi : i < df.nRows
  · rw [if_pos hi, Option.some.injEq] at he
    subst he
    rw [foldl_updateRole_roleVal]
    unfold roleCellStr
    cases df.cols.reverse.find? (fun c => roleOf c.name = some r) with
    | some c => rfl
    | none => exact roleVal_init r
  · rw [if_neg hi] at he
    exact Option.noConfusion he

def dfC4w : Table :=
  ⟨[⟨"PM STATUS", [some "s"]⟩, ⟨"ANNUAL", [some "a1"]⟩,
    ⟨"ANNUAL DUE", [some "a2"]⟩, ⟨"PM DATE", [none]⟩], [0]⟩

def eC4w : ExcelData := ⟨"s", "a2", "", ""⟩

/-- Witness for C4: a table whose first column satisfies both the STATUS and
the PM∧DATE predicates (STATUS wins) and with two ANNUAL columns (the later
one wins). -/
theorem C4_witness :
    extract_excel_data 0 dfC4w = some eC4w ∧
    eC4w.roleVal .annual = roleCellStr dfC4w 0 .annual ∧
    roleCellStr dfC4w 0 .annual = "a2" :=
  ⟨by decide,
   C4_extract_last_qualifying_column_wins dfC4w 0 eC4w (by decide) .annual,
   by decide⟩

/-! ### Lemmas about boolean-mask row filtering -/

lemma maskFilter_map {α β : Type} (f : α → β) :
    ∀ (m : List Bool) (l : List α),
      maskFilter m (l.map f) = (maskFilter m l).map f := by
  intro m
  induction m with
  | nil => intro l; cases l <;> rfl
  | cons b bs ih =>
    intro l
    cases l with
    | nil => simp [maskFilter]
    | cons x xs => cases b <;> simp [maskFilter, ih]

lemma maskFilter_maskFilter {α : Type} :
    ∀ (m a : List Bool) (x : List α),
      maskFilter (maskFilter m a) (maskFilter m x)
        = maskFilter (List.zipWith (· && ·) m a) x := by
  intro m
  induction m with
  | nil => intro a x; cases a <;> cases x <;> rfl
  | cons b bs ih =>
    intro a x
    cases a with
    | nil => cases x <;> cases b <;> simp [maskFilter]
    | cons a' as =>
      cases x with
      | nil => cases b <;> cases a' <;> simp [maskFilter]
      | cons x' xs => cases b <;> cases a' <;> simp [maskFilter, ih]

lemma zipWith_and_map {α : Type} (p q : α → Bool) :
    ∀ l : List α,
      List.zipWith (· && ·) (l.map p) (l.map q) = l.map (fun x => p x && q x) := by
  intro l
  induction l with
  | nil => rfl
  | cons x xs ih => simp [ih]

/-- Filtering twice, each time by a predicate-mask over (the survivors of)
the same base list, equals filtering once by the conjunction. -/
lemma maskFilter_two {α : Type} (p q : α → Bool) (ys : List α) {β : Type}
    (xs : List β) :
    maskFilter ((maskFilter (ys.map p) ys).map q) (maskFilter (ys.map p) xs)
      = maskFilter (ys.map fun y => p y && q y) xs := by
  rw [← maskFilter_map, maskFilter_maskFilter, zipWith_and_map]

lemma maskFilter_sublist {α : Type} :
    ∀ (m : List Bool) (l : List α), (maskFilter m l).Sublist l := by
  intro m
  induction m with
  | nil => intro l; cases l <;> simp [maskFilter]
  | cons b bs ih =>
    intro l
    cases l with
    | nil => simp [maskFilter]
    | cons x xs =>
      cases b
      · exact (ih xs).cons x
      · exact (ih xs).cons₂ x

lemma mem_maskFilter_self {α : Type} (p : α → Bool) :
    ∀ (l : List α) (x : α), x ∈ maskFilter (l.map p) l → p x = true := by
  intro l
  induction l with
  | nil => intro x h; simp [maskFilter] at h
  | cons y ys ih =>
    intro x h
    by_cases hy : p y = true
    · rw [List.map_cons, hy] at h
      rcases (List.mem_cons).mp h with rfl | h'
      · exact hy
      · exact ih x h'
    · rw [List.map_cons, Bool.eq_false_iff.mpr hy] at h
      exact ih x h

lemma maskFilter_all_true {α : Type} :
    ∀ (m : List Bool) (l : List α), (∀ b ∈ m, b = true) → m.length = l.length →
      maskFilter m l = l := by
  intro m
  induction m with
  | nil => intro l _ hl; cases l <;> simp_all [maskFilter]
  | cons b bs ih =>
    intro l hb hl
    cases l with
    | nil => simp at hl
    | cons x xs =>
      have hbt : b = true := hb b (List.mem_cons_self b bs)
      subst hbt
      rw [show maskFilter (true :: bs) (x :: xs) = x :: maskFilter bs xs from rfl,
        ih xs (fun b' h' => hb b' (List.mem_cons_of_mem _ h')) (by simpa using hl)]

lemma mem_maskFilter_zip {α : Type} [DecidableEq α] (p : Cell → Bool) :
    ∀ (l : List α) (cs : List Cell), l.Nodup →
      ∀ a c, (a, c) ∈ l.zip cs →
        (a ∈ maskFilter (cs.map p) l ↔ p c = true) := by
  intro l
  induction l with
  | nil => intro cs _ a c h; simp at h
  | cons x xs ih =>
    intro cs hnd a c h
    cases cs with
    | nil => simp at h
    | cons c0 cs' =>
      rcases (List.mem_cons).mp h with heq | h'
      · obtain ⟨rfl, rfl⟩ := Prod.mk.inj heq
        cases hc : p c
        · have hnotmem : a ∉ maskFilter (cs'.map p) xs :=
            fun hm => (List.nodup_cons.mp hnd).1 ((maskFilter_sublist _ _).subset hm)
          simp [maskFilter, hc, hnotmem]
        · simp [maskFilter, hc]
      · have hxs : a ∈ xs ∧ c ∈ cs' := ⟨(List.of_mem_zip h').1, (List.of_mem_zip h').2⟩
        have hax : a ≠ x := fun heq => (List.nodup_cons.mp hnd).1 (heq ▸ hxs.1)
        have := ih cs' (List.nodup_cons.mp hnd).2 a c h'
        cases hc0 : p c0 <;> simp [maskFilter, hc0, hax, this]

lemma maskFilter_length_congr {α β : Type} :
    ∀ (m : List Bool) (l1 : List α) (l2 : List β), l1.length = l2.length →
      (maskFilter m l1).length = (maskFilter m l2).length := by
  intro m
  induction m with
  | nil => intro l1 l2 _; cases l1 <;> cases l2 <;> simp [maskFilter]
  | cons b bs ih =>
    intro l1 l2 h
    cases l1 with
    | nil => cases l2 with
      | nil => simp [maskFilter]
      | cons y ys => simp at h
    | cons x xs =>
      cases l2 with
      | nil => simp at h
      | cons y ys => cases b <;> simp [maskFilter, ih xs ys (by simpa using h)]

/-! ### Lemmas about `clean_excel_data` -/

/-- Cells of the first column (`df[df.columns[0]]`), `[]` if no columns. -/
def firstColCells (t : Table) : List Cell :=
  match t.cols with
  | c :: _ => c.cells
  | [] => []

/-- Name of the first column, `""` if no columns. -/
def firstColName (t : Table) : String :=
  match t.cols with
  | c :: _ => c.name
  | [] => ""

/-- A row survives the four successive exclusion filters exactly when its
first-column cell differs from each literal (association mirrors the
`foldl`). -/
def keepCell (c : Cell) : Bool :=
  ((neLit "OLD" c && neLit "DKD" c) && neLit "GNS" c) && neLit "SOLD" c

lemma keepCell_iff (c : Cell) :
    keepCell c = true ↔ c ∉ [some "OLD", some "DKD", some "GNS", some "SOLD"] := by
  simp [keepCell, neLit, List.mem_cons]
  tauto

lemma unnamedShift_labels (t : Table) : (unnamedShift t).labels = t.labels := by
  unfold unnamedShift
  cases t.cols with
  | nil => rfl
  | cons c rest => by_cases h : isPrefixOfChars "Unnamed".data c.name.data <;> simp [h]

lemma vinTrim_labels (t : Table) : (vinTrim t).labels = t.labels := by
  unfold vinTrim
  cases vinIndexAux t.cols <;> rfl

lemma maskTable_labels (m : List Bool) (t : Table) :
    (maskTable m t).labels = maskFilter m t.labels := rfl

lemma filterByLiteral_eq (lit : String) (t : Table) (c0 : Column)
    (cs : List Column) (h : t.cols = c0 :: cs) :
    filterByLiteral lit t = maskTable (c0.cells.map (neLit lit)) t := by
  unfold filterByLiteral
  rw [h]

lemma filterByLiteral_maskTable (lit : String) (p : Cell → Bool) (t : Table)
    (c0 : Column) (cs : List Column) (h : t.cols = c0 :: cs) :
    filterByLiteral lit (maskTable (c0.cells.map p) t)
      = maskTable (c0.cells.map fun c => p c && neLit lit c) t := by
  have hcols : (maskTable (c0.cells.map p) t).cols
      = { c0 with cells := maskFilter (c0.cells.map p) c0.cells }
        :: cs.map (fun c => { c with cells := maskFilter (c0.cells.map p) c.cells }) := by
    simp [maskTable, h]
  rw [filterByLiteral_eq lit _ _ _ hcols]
  unfold maskTable
  rw [h]
  simp only [List.map_cons, List.map_map, Table.mk.injEq]
  constructor
  · rw [List.cons.injEq]
    constructor
    · show Column.mk c0.name _ = Column.mk c0.name _
      rw [maskFilter_two]
    · apply List.map_congr_left
      intro c _
      show Column.mk c.name _ = Column.mk c.name _
      rw [maskFilter_two]
  · exact maskFilter_two p (neLit lit) c0.cells t.labels

/-- The four successive `df = df[df[first_col] != v]` filters collapse to a
single mask over the original first column. -/
lemma filter_fold_eq (t : Table) (c0 : Column) (cs : List Column)
    (h : t.cols = c0 :: cs) :
    filters_to_remove.foldl (fun acc lit => filterByLiteral lit acc) t
      = maskTable (c0.cells.map keepCell) t := by
  show filterByLiteral "SOLD" (filterByLiteral "GNS" (filterByLiteral "DKD"
      (filterByLiteral "OLD" t))) = _
  rw [filterByLiteral_eq "OLD" t c0 cs h,
    filterByLiteral_maskTable "DKD" _ t c0 cs h,
    filterByLiteral_maskTable "GNS" _ t c0 cs h,
    filterByLiteral_maskTable "SOLD" _ t c0 cs h]
  rfl

lemma wf_unnamedShift (t : Table) (h : t.wf) : (unnamedShift t).wf := by
  rcases hc : t.cols with _ | ⟨c, rest⟩
  · have he : unnamedShift t = t := by simp [unnamedShift, hc]
    rw [he]; exact h
  · by_cases hp : isPrefixOfChars "Unnamed".data c.name.data = true
    · have he : unnamedShift t = ⟨rest, t.labels⟩ := by simp [unnamedShift, hc, hp]
      rw [he]
      intro c' hc'
      exact h c' (hc ▸ List.mem_cons_of_mem c hc')
    · have he : unnamedShift t = t := by simp [unnamedShift, hc, hp]
      rw [he]; exact h

lemma wf_maskTable (m : List Bool) (t : Table) (h : t.wf) : (maskTable m t).wf := by
  intro c hc
  rw [maskTable_labels]
  obtain ⟨c', hc', rfl⟩ := List.mem_map.mp hc
  exact maskFilter_length_congr m c'.cells t.labels (h c' hc')

lemma wf_vinTrim (t : Table) (h : t.wf) : (vinTrim t).wf := by
  unfold vinTrim
  cases vinIndexAux t.cols with
  | none => exact h
  | some i =>
    intro c hc
    exact h c ((List.take_sublist _ _).subset hc)

/-- C7: a row of the (possibly `Unnamed`-shifted) table survives cleaning
exactly when its first-column cell is not literally one of
`OLD`/`DKD`/`GNS`/`SOLD` (case-sensitive exact equality; NaN and
near-matches such as `"old"` are kept). -/
theorem C7_row_exclusion_exact_literals (t u : Table) (hnd : t.labels.Nodup)
    (hne : t.isEmptyT = false) (hc : clean_excel_data t = some u) :
    ∀ lab c, (lab, c) ∈ t.labels.zip (firstColCells (unnamedShift t)) →
      (lab ∈ u.labels ↔ c ∉ [some "OLD", some "DKD", some "GNS", some "SOLD"]) := by
  unfold clean_excel_data at hc
  rw [if_neg (by simp [hne])] at hc
  cases h1 : (unnamedShift t).cols with
  | nil => rw [h1] at hc; exact Option.noConfusion hc
  | cons c0 cs =>
    rw [h1, Option.some.injEq] at hc
    have hlab : u.labels = maskFilter (c0.cells.map keepCell) t.labels := by
      rw [← hc, vinTrim_labels, filter_fold_eq (unnamedShift t) c0 cs h1,
        maskTable_labels, unnamedShift_labels]
    intro lab c hmem
    rw [hlab, ← keepCell_iff]
    have hcc : firstColCells (unnamedShift t) = c0.cells := by
      unfold firstColCells; rw [h1]
    rw [hcc] at hmem
    exact mem_maskFilter_zip keepCell t.labels c0.cells hnd lab c hmem

def tC7w : Table :=
  ⟨[⟨"TRUCK", [some "OLD", some "old", some "T-1"]⟩], [0, 1, 2]⟩

def uC7w : Table :=
  ⟨[⟨"TRUCK", [some "old", some "T-1"]⟩], [1, 2]⟩

/-- Witness for C7: the row whose first cell is exactly `"OLD"` is dropped;
the case-mismatched `"old"` row survives. -/
theorem C7_witness :
    ((0 : Nat) ∈ uC7w.labels ↔
      (some "OLD" : Cell) ∉ [some "OLD", some "DKD", some "GNS", some "SOLD"]) ∧
    ((1 : Nat) ∈ uC7w.labels ↔
      (some "old" : Cell) ∉ [some "OLD", some "DKD", some "GNS", some "SOLD"]) :=
  ⟨C7_row_exclusion_exact_literals tC7w uC7w (by decide) (by decide) (by decide)
      0 (some "OLD") (by decide),
   C7_row_exclusion_exact_literals tC7w uC7w (by decide) (by decide) (by decide)
      1 (some "old") (by decide)⟩

instance (t : Table) : Decidable t.wf := by
  unfold Table.wf; infer_instance

lemma vinIndexAux_take :
    ∀ (cols : List Column) (i : Nat), vinIndexAux cols = some i →
      vinIndexAux (cols.take (i + 1)) = some i := by
  intro cols
  induction cols with
  | nil => intro i h; simp [vinIndexAux] at h
  | cons c cs ih =>
    intro i h
    by_cases hv : containsSub "VIN".data (pyUpperData c.name.data) = true
    · simp only [vinIndexAux, hv, if_pos] at h
      obtain rfl : (0 : Nat) = i := Option.some.inj h
      simp [vinIndexAux, hv]
    · simp only [vinIndexAux, hv, if_neg, Bool.false_eq_true, if_false] at h
      obtain ⟨j, hj, rfl⟩ := Option.map_eq_some'.mp h
      rw [List.take_succ_cons]
      simp only [vinIndexAux, hv, Bool.false_eq_true, if_false]
      rw [ih j hj]
      rfl

lemma vinTrim_idem (t : Table) : vinTrim (vinTrim t) = vinTrim t := by
  cases hvi : vinIndexAux t.cols with
  | none =>
    have h : vinTrim t = t := by unfold vinTrim; rw [hvi]
    rw [h]
    exact h
  | some i =>
    have h : vinTrim t = { t with cols := t.cols.take (i + 1) } := by
      unfold vinTrim; rw [hvi]
    have hvi2 : vinIndexAux (t.cols.take (i + 1)) = some i :=
      vinIndexAux_take t.cols i hvi
    rw [h]
    unfold vinTrim
    rw [show ({ t with cols := t.cols.take (i + 1) } : Table).cols
        = t.cols.take (i + 1) from rfl, hvi2]
    simp [List.take_take]

lemma vinTrim_cols_head (t : Table) (c0 : Column) (cs : List Column)
    (h : t.cols = c0 :: cs) : ∃ us, (vinTrim t).cols = c0 :: us := by
  unfold vinTrim
  cases hvi : vinIndexAux t.cols with
  | none => exact ⟨cs, h⟩
  | some i =>
    exact ⟨cs.take i, by
      show t.cols.take (i + 1) = c0 :: cs.take i
      rw [h, List.take_succ_cons]⟩

lemma maskTable_eq_self (m : List Bool) (t : Table) (hwf : t.wf)
    (hm : ∀ b ∈ m, b = true) (hlen : m.length = t.labels.length) :
    maskTable m t = t := by
  obtain ⟨cols, labels⟩ := t
  have h2 : maskFilter m labels = labels := maskFilter_all_true m labels hm hlen
  have h1 : cols.map (fun c => { c with cells := maskFilter m c.cells }) = cols := by
    conv_rhs => rw [← List.map_id cols]
    apply List.map_congr_left
    intro c hc
    have := maskFilter_all_true m c.cells hm (hlen.trans (hwf c hc).symm)
    simp [this]
  simp [maskTable, h1, h2]

def tC6cx : Table :=
  ⟨[⟨"Unnamed: 0", [some "a"]⟩, ⟨"Unnamed: 1", [some "b"]⟩,
    ⟨"TRUCK", [some "T-9"]⟩], [0]⟩

def uC6cx : Table :=
  ⟨[⟨"Unnamed: 1", [some "b"]⟩, ⟨"TRUCK", [some "T-9"]⟩], [0]⟩

/-- C6 counterexample: a raw table with *two* leading `Unnamed` columns.
`clean` drops only one of them per run, so a second run drops another
column and `clean (clean t) ≠ clean t`. -/
theorem C6_counterexample :
    clean_excel_data tC6cx = some uC6cx ∧
    clean_excel_data uC6cx ≠ some uC6cx := by
  decide

/-- C6 (amended): `clean` is idempotent on every well-formed table whose
cleaned result is empty or does not itself start with an `Unnamed`-prefixed
column — re-running then finds no unnamed leading column, no excluded rows,
and the same VIN cut; without that proviso idempotence fails
(`C6_counterexample`). -/
theorem C6_clean_idempotent_on_stable_output (t u : Table) (hwf : t.wf)
    (hc : clean_excel_data t = some u)
    (hu : u.isEmptyT = true ∨
      isPrefixOfChars "Unnamed".data (firstColName u).data = false) :
    clean_excel_data u = some u := by
  by_cases hte : t.isEmptyT = true
  · have ht : t = u := by
      unfold clean_excel_data at hc
      rw [if_pos hte] at hc
      exact Option.some.inj hc
    subst ht
    unfold clean_excel_data
    rw [if_pos hte]
  · unfold clean_excel_data at hc
    rw [if_neg hte] at hc
    rcases h1 : (unnamedShift t).cols with _ | ⟨c0, cs⟩
    · rw [h1] at hc; exact Option.noConfusion hc
    · rw [h1, Option.some.injEq] at hc
      rw [filter_fold_eq (unnamedShift t) c0 cs h1] at hc
      have hwf1 : (unnamedShift t).wf := wf_unnamedShift t hwf
      have hwf2 : (maskTable (c0.cells.map keepCell) (unnamedShift t)).wf :=
        wf_maskTable _ _ hwf1
      have hwfu : u.wf := hc ▸ wf_vinTrim _ hwf2
      have ht2cols : (maskTable (c0.cells.map keepCell) (unnamedShift t)).cols
          = (⟨c0.name, maskFilter (c0.cells.map keepCell) c0.cells⟩ : Column)
            :: cs.map (fun c =>
              { c with cells := maskFilter (c0.cells.map keepCell) c.cells }) := by
        simp [maskTable, h1]
      obtain ⟨us, hucols⟩ : ∃ us, u.cols
          = (⟨c0.name, maskFilter (c0.cells.map keepCell) c0.cells⟩ : Column) :: us := by
        rw [← hc]
        exact vinTrim_cols_head _ _ _ ht2cols
      by_cases hue : u.isEmptyT = true
      · unfold clean_excel_data
        rw [if_pos hue]
      · rcases hu with hu | hu
        · exact absurd hu hue
        · have hfn : firstColName u = c0.name := by
            unfold firstColName; rw [hucols]
          rw [hfn] at hu
          have hshift : unnamedShift u = u := by
            unfold unnamedShift
            rw [hucols]
            simp [hu]
          unfold clean_excel_data
          rw [if_neg hue, hshift, hucols]
          show some (vinTrim (filters_to_remove.foldl
            (fun acc lit => filterByLiteral lit acc) u)) = some u
          rw [filter_fold_eq u _ us hucols]
          have hall : ∀ b ∈ (maskFilter (c0.cells.map keepCell) c0.cells).map keepCell,
              b = true := by
            intro b hb
            obtain ⟨x, hx, rfl⟩ := List.mem_map.mp hb
            exact mem_maskFilter_self keepCell c0.cells x hx
          have hlen : ((maskFilter (c0.cells.map keepCell) c0.cells).map keepCell).length
              = u.labels.length := by
            rw [List.length_map]
            exact hwfu _ (hucols ▸ List.mem_cons_self _ _)
          rw [maskTable_eq_self _ u hwfu hall hlen, ← hc, vinTrim_idem]

def tC6w : Table :=
  ⟨[⟨"TRUCK", [some "OLD", some "T-1"]⟩, ⟨"VIN", [some "v1", some "v2"]⟩,
    ⟨"NOTES", [some "x", some "y"]⟩], [0, 1]⟩

def uC6w : Table :=
  ⟨[⟨"TRUCK", [some "T-1"]⟩, ⟨"VIN", [some "v2"]⟩], [1]⟩

/-- Witness for C6: a concrete cleaning (junk row dropped, columns after
VIN trimmed) on which re-cleaning is the identity. -/
theorem C6_witness : clean_excel_data uC6w = some uC6w :=
  C6_clean_idempotent_on_stable_output tC6w uC6w (by decide) (by decide)
    (Or.inr (by decide))

/-! ### Lemmas: digit rendering and `strptime` round-trips -/

lemma isDigit_digitChar (d : Nat) (h : d < 10) : (Nat.digitChar d).isDigit = true := by
  interval_cases d <;> decide

lemma digitVal_digitChar (d : Nat) (h : d < 10) : digitVal (Nat.digitChar d) = d := by
  interval_cases d <;> decide

lemma pad2_all_digits (n : Nat) (h : n ≤ 99) : (pad2 n).all Char.isDigit = true := by
  simp only [pad2, List.all_cons, List.all_nil, Bool.and_true]
  rw [isDigit_digitChar (n / 10) (by omega), isDigit_digitChar (n % 10) (by omega)]
  rfl

lemma natOfDigits_pad2 (n : Nat) (h : n ≤ 99) : natOfDigits (pad2 n) = n := by
  simp only [natOfDigits, pad2, List.foldl]
  rw [digitVal_digitChar (n / 10) (by omega), digitVal_digitChar (n % 10) (by omega)]
  omega

lemma pad4_all_digits (n : Nat) (h : n ≤ 9999) : (pad4 n).all Char.isDigit = true := by
  simp only [pad4, List.all_cons, List.all_nil, Bool.and_true]
  rw [isDigit_digitChar (n / 1000) (by omega), isDigit_digitChar (n / 100 % 10) (by omega),
    isDigit_digitChar (n / 10 % 10) (by omega), isDigit_digitChar (n % 10) (by omega)]
  rfl

lemma natOfDigits_pad4 (n : Nat) (h : n ≤ 9999) : natOfDigits (pad4 n) = n := by
  simp only [natOfDigits, pad4, List.foldl]
  rw [digitVal_digitChar (n / 1000) (by omega), digitVal_digitChar (n / 100 % 10) (by omega),
    digitVal_digitChar (n / 10 % 10) (by omega), digitVal_digitChar (n % 10) (by omega)]
  omega

lemma not_mem_of_all_digits (x : Char) (hx : x.isDigit = false) (l : List Char)
    (h : l.all Char.isDigit = true) : x ∉ l := by
  intro hm
  rw [List.all_eq_true] at h
  have := h x hm
  rw [hx] at this
  exact Bool.noConfusion this

lemma splitOnChar_ne_nil (sep : Char) : ∀ l : List Char, splitOnChar sep l ≠ [] := by
  intro l
  induction l with
  | nil => simp [splitOnChar]
  | cons c cs ih =>
    unfold splitOnChar
    cases h : splitOnChar sep cs with
    | nil => simp
    | cons p ps => by_cases hc : c = sep <;> simp [hc]

lemma splitOnChar_no_sep (sep : Char) :
    ∀ l : List Char, sep ∉ l → splitOnChar sep l = [l] := by
  intro l
  induction l with
  | nil => intro _; rfl
  | cons c cs ih =>
    intro h
    have hc : ¬ c = sep := fun he => h (he ▸ List.mem_cons_self c cs)
    have hcs : sep ∉ cs := fun hm => h (List.mem_cons_of_mem c hm)
    unfold splitOnChar
    rw [ih hcs]
    simp [hc]

lemma splitOnChar_cons (sep c : Char) (cs : List Char) :
    splitOnChar sep (c :: cs)
      = match splitOnChar sep cs with
        | [] => [[c]]
        | p :: ps => if c = sep then [] :: p :: ps else (c :: p) :: ps := rfl

lemma splitOnChar_cons_sep (sep : Char) (r : List Char) :
    splitOnChar sep (sep :: r) = [] :: splitOnChar sep r := by
  cases h : splitOnChar sep r with
  | nil => exact absurd h (splitOnChar_ne_nil sep r)
  | cons p ps => rw [splitOnChar_cons, h]; simp

lemma splitOnChar_append (sep : Char) :
    ∀ (a r : List Char), sep ∉ a →
      splitOnChar sep (a ++ sep :: r) = a :: splitOnChar sep r := by
  intro a
  induction a with
  | nil => intro r _; simpa using splitOnChar_cons_sep sep r
  | cons c a' ih =>
    intro r h
    have hc : ¬ c = sep := fun he => h (he ▸ List.mem_cons_self c a')
    have ha' : sep ∉ a' := fun hm => h (List.mem_cons_of_mem c hm)
    show splitOnChar sep (c :: (a' ++ sep :: r)) = (c :: a') :: splitOnChar sep r
    rw [splitOnChar_cons, ih r ha']
    simp [hc]

lemma strptime3_split (sep : Char) (l1 l2 l3 : Nat) (a b c : List Char)
    (ha : a.all Char.isDigit = true) (hb : b.all Char.isDigit = true)
    (hc : c.all Char.isDigit = true)
    (hna : a ≠ []) (hnb : b ≠ []) (hnc : c ≠ [])
    (hla : a.length ≤ l1) (hlb : b.length ≤ l2) (hlc : c.length ≤ l3)
    (hsep : sep.isDigit = false) :
    strptime3 sep l1 l2 l3 (a ++ sep :: (b ++ sep :: c))
      = some (natOfDigits a, natOfDigits b, natOfDigits c) := by
  have hsa := not_mem_of_all_digits sep hsep a ha
  have hsb := not_mem_of_all_digits sep hsep b hb
  have hsc := not_mem_of_all_digits sep hsep c hc
  unfold strptime3
  rw [splitOnChar_append sep a _ hsa, splitOnChar_append sep b _ hsb,
    splitOnChar_no_sep sep c hsc]
  simp [fieldOK, ha, hb, hc, hna, hnb, hnc, hla, hlb, hlc]

lemma strptime3_none_of_not_mem (sep : Char) (l1 l2 l3 : Nat) (s : List Char)
    (h : sep ∉ s) : strptime3 sep l1 l2 l3 s = none := by
  unfold strptime3
  rw [splitOnChar_no_sep sep s h]

lemma mkDate_valid (dt : Date) (h : dt.valid) :
    mkDate dt.year dt.month dt.day = some dt := by
  unfold mkDate
  rw [if_pos (show validYMD dt.year dt.month dt.day = true from h)]

lemma daysInMonth_le (y m : Nat) : daysInMonth y m ≤ 31 := by
  unfold daysInMonth
  split_ifs <;> omega

lemma valid_fields (dt : Date) (h : dt.valid) :
    1 ≤ dt.year ∧ dt.year ≤ 9999 ∧ 1 ≤ dt.month ∧ dt.month ≤ 12 ∧
    1 ≤ dt.day ∧ dt.day ≤ 31 := by
  have h31 := daysInMonth_le dt.year dt.month
  simp only [Date.valid, validYMD, Bool.and_eq_true, decide_eq_true_eq] at h
  omega

lemma not_mem_three (x sep : Char) (a b c : List Char)
    (ha : x ∉ a) (hb : x ∉ b) (hc : x ∉ c) (hs : x ≠ sep) :
    x ∉ a ++ sep :: (b ++ sep :: c) := by
  simp only [List.mem_append, List.mem_cons]
  push_neg
  exact ⟨ha, hs, hb, hs, hc⟩

/-- Parsing a formatted date with its own format recovers the date. -/
lemma strptimeFmt_self (fmt : DateFormat) (dt : Date) (hv : dt.valid)
    (hy : 1000 ≤ dt.year) : strptimeFmt fmt (strftimeFmt fmt dt) = some dt := by
  obtain ⟨h1, h2, h3, h4, h5, h6⟩ := valid_fields dt hv
  cases fmt
  case mdySlash =>
    show (match strptime3 '/' 2 2 4
        (pad2 dt.month ++ '/' :: (pad2 dt.day ++ '/' :: pad4 dt.year)) with
      | some (m, d, y) => mkDate y m d
      | none => none) = some dt
    rw [strptime3_split '/' 2 2 4 _ _ _
      (pad2_all_digits _ (by omega)) (pad2_all_digits _ (by omega))
      (pad4_all_digits _ (by omega))
      (by simp [pad2]) (by simp [pad2]) (by simp [pad4])
      (by simp [pad2]) (by simp [pad2]) (by simp [pad4]) (by decide)]
    rw [natOfDigits_pad2 _ (by omega), natOfDigits_pad2 _ (by omega),
      natOfDigits_pad4 _ (by omega)]
    exact mkDate_valid dt hv
  case isoYMD =>
    show (match strptime3 '-' 4 2 2
        (pad4 dt.year ++ '-' :: (pad2 dt.month ++ '-' :: pad2 dt.day)) with
      | some (y, m, d) => mkDate y m d
      | none => none) = some dt
    rw [strptime3_split '-' 4 2 2 _ _ _
      (pad4_all_digits _ (by omega)) (pad2_all_digits _ (by omega))
      (pad2_all_digits _ (by omega))
      (by simp [pad4]) (by simp [pad2]) (by simp [pad2])
      (by simp [pad4]) (by simp [pad2]) (by simp [pad2]) (by decide)]
    rw [natOfDigits_pad2 _ (by omega), natOfDigits_pad2 _ (by omega),
      natOfDigits_pad4 _ (by omega)]
    exact mkDate_valid dt hv
  case dmyDot =>
    show (match strptime3 '.' 2 2 4
        (pad2 dt.day ++ '.' :: (pad2 dt.month ++ '.' :: pad4 dt.year)) with
      | some (d, m, y) => mkDate y m d
      | none => none) = some dt
    rw [strptime3_split '.' 2 2 4 _ _ _
      (pad2_all_digits _ (by omega)) (pad2_all_digits _ (by omega))
      (pad4_all_digits _ (by omega))
      (by simp [pad2]) (by simp [pad2]) (by simp [pad4])
      (by simp [pad2]) (by simp [pad2]) (by simp [pad4]) (by decide)]
    rw [natOfDigits_pad2 _ (by omega), natOfDigits_pad2 _ (by omega),
      natOfDigits_pad4 _ (by omega)]
    exact mkDate_valid dt hv
  case mdyDash =>
    show (match strptime3 '-' 2 2 4
        (pad2 dt.month ++ '-' :: (pad2 dt.day ++ '-' :: pad4 dt.year)) with
      | some (m, d, y) => mkDate y m d
      | none => none) = some dt
    rw [strptime3_split '-' 2 2 4 _ _ _
      (pad2_all_digits _ (by omega)) (pad2_all_digits _ (by omega))
      (pad4_all_digits _ (by omega))
      (by simp [pad2]) (by simp [pad2]) (by simp [pad4])
      (by simp [pad2]) (by simp [pad2]) (by simp [pad4]) (by decide)]
    rw [natOfDigits_pad2 _ (by omega), natOfDigits_pad2 _ (by omega),
      natOfDigits_pad4 _ (by omega)]
    exact mkDate_valid dt hv

/-- A formatted date is parsed back by the *first* matching format of the
priority list, and the earlier formats all fail on it. -/
lemma tryFormats_roundtrip (fmt : DateFormat) (dt : Date) (hv : dt.valid)
    (hy : 1000 ≤ dt.year) : tryFormats (strftimeFmt fmt dt) = some dt := by
  obtain ⟨h1, h2, h3, h4, h5, h6⟩ := valid_fields dt hv
  have hm2 := pad2_all_digits dt.month (by omega)
  have hd2 := pad2_all_digits dt.day (by omega)
  have hy4 := pad4_all_digits dt.year (by omega)
  have hsm : ∀ x : Char, x.isDigit = false → x ∉ pad2 dt.month :=
    fun x hx => not_mem_of_all_digits x hx _ hm2
  have hsd : ∀ x : Char, x.isDigit = false → x ∉ pad2 dt.day :=
    fun x hx => not_mem_of_all_digits x hx _ hd2
  have hsy : ∀ x : Char, x.isDigit = false → x ∉ pad4 dt.year :=
    fun x hx => not_mem_of_all_digits x hx _ hy4
  cases fmt
  case mdySlash =>
    unfold tryFormats
    rw [strptimeFmt_self .mdySlash dt hv hy]
  case isoYMD =>
    have hf1 : strptimeFmt .mdySlash (strftimeFmt .isoYMD dt) = none := by
      show (match strptime3 '/' 2 2 4
          (pad4 dt.year ++ '-' :: (pad2 dt.month ++ '-' :: pad2 dt.day)) with
        | some (m, d, y) => mkDate y m d
        | none => none) = none
      rw [strptime3_none_of_not_mem '/' 2 2 4 _
        (not_mem_three '/' '-' _ _ _ (hsy '/' (by decide)) (hsm '/' (by decide))
          (hsd '/' (by decide)) (by decide))]
    unfold tryFormats
    rw [hf1, strptimeFmt_self .isoYMD dt hv hy]
  case dmyDot =>
    have hf1 : strptimeFmt .mdySlash (strftimeFmt .dmyDot dt) = none := by
      show (match strptime3 '/' 2 2 4
          (pad2 dt.day ++ '.' :: (pad2 dt.month ++ '.' :: pad4 dt.year)) with
        | some (m, d, y) => mkDate y m d
        | none => none) = none
      rw [strptime3_none_of_not_mem '/' 2 2 4 _
        (not_mem_three '/' '.' _ _ _ (hsd '/' (by decide)) (hsm '/' (by decide))
          (hsy '/' (by decide)) (by decide))]
    have hf2 : strptimeFmt .isoYMD (strftimeFmt .dmyDot dt) = none := by
      show (match strptime3 '-' 4 2 2
          (pad2 dt.day ++ '.' :: (pad2 dt.month ++ '.' :: pad4 dt.year)) with
        | some (y, m, d) => mkDate y m d
        | none => none) = none
      rw [strptime3_none_of_not_mem '-' 4 2 2 _
        (not_mem_three '-' '.' _ _ _ (hsd '-' (by decide)) (hsm '-' (by decide))
          (hsy '-' (by decide)) (by decide))]
    unfold tryFormats
    rw [hf1, hf2, strptimeFmt_self .dmyDot dt hv hy]
  case mdyDash =>
    have hf1 : strptimeFmt .mdySlash (strftimeFmt .mdyDash dt) = none := by
      show (match strptime3 '/' 2 2 4
          (pad2 dt.month ++ '-' :: (pad2 dt.day ++ '-' :: pad4 dt.year)) with
        | some (m, d, y) => mkDate y m d
        | none => none) = none
      rw [strptime3_none_of_not_mem '/' 2 2 4 _
        (not_mem_three '/' '-' _ _ _ (hsm '/' (by decide)) (hsd '/' (by decide))
          (hsy '/' (by decide)) (by decide))]
    have hf2 : strptimeFmt .isoYMD (strftimeFmt .mdyDash dt) = none := by
      show (match strptime3 '-' 4 2 2
          (pad2 dt.month ++ '-' :: (pad2 dt.day ++ '-' :: pad4 dt.year)) with
        | some (y, m, d) => mkDate y m d
        | none => none) = none
      have hsplit : strptime3 '-' 4 2 2
          (pad2 dt.month ++ '-' :: (pad2 dt.day ++ '-' :: pad4 dt.year)) = none := by
        unfold strptime3
        rw [splitOnChar_append '-' _ _ (hsm '-' (by decide)),
          splitOnChar_append '-' _ _ (hsd '-' (by decide)),
          splitOnChar_no_sep '-' _ (hsy '-' (by decide))]
        simp [fieldOK, pad4]
      rw [hsplit]
    have hf3 : strptimeFmt .dmyDot (strftimeFmt .mdyDash dt) = none := by
      show (match strptime3 '.' 2 2 4
          (pad2 dt.month ++ '-' :: (pad2 dt.day ++ '-' :: pad4 dt.year)) with
        | some (d, m, y) => mkDate y m d
        | none => none) = none
      rw [strptime3_none_of_not_mem '.' 2 2 4 _
        (not_mem_three '.' '-' _ _ _ (hsm '.' (by decide)) (hsd '.' (by decide))
          (hsy '.' (by decide)) (by decide))]
    unfold tryFormats
    rw [hf1, hf2, hf3, strptimeFmt_self .mdyDash dt hv hy]

lemma fdiv_day_boundary (N : Int) (s : Nat) (hs : s < 86400) :
    Int.fdiv (N * 86400 - (s : Int)) 86400 = if s = 0 then N else N - 1 := by
  rw [Int.fdiv_eq_ediv _ (by norm_num)]
  by_cases h0 : s = 0
  · subst h0
    simp
  · rw [if_neg h0]
    omega

/-- The computed day offset for a date formatted in any of the four formats:
exactly the calendar-day difference when evaluated at midnight, one less at
any later instant (Python `timedelta.days` floors). -/
lemma calculate_roundtrip (fmt : DateFormat) (dt : Date) (now : Instant) (N : Int)
    (hv : dt.valid) (hy : 1000 ≤ dt.year) (hs : now.sec < 86400)
    (hN : daysFromCivil dt = daysFromCivil now.date + N) :
    calculate_days_remaining (some (String.mk (strftimeFmt fmt dt))) now
      = some (if now.sec = 0 then N else N - 1) := by
  unfold calculate_days_remaining
  show (if strftimeFmt fmt dt = [] then none
    else match tryFormats (strftimeFmt fmt dt) with
      | some target => some (pyDateDiffDays target now)
      | none => none) = some (if now.sec = 0 then N else N - 1)
  have hne : strftimeFmt fmt dt ≠ [] := by
    cases fmt <;> simp [strftimeFmt, pad2, pad4]
  rw [if_neg hne, tryFormats_roundtrip fmt dt hv hy]
  show some (pyDateDiffDays dt now) = _
  unfold pyDateDiffDays
  rw [hN, show daysFromCivil now.date + N - daysFromCivil now.date = N by ring,
    fdiv_day_boundary N now.sec hs]

/-- C2: `parseDaysRemaining` round-trips each of the four supported formats:
formatting the date lying `N` calendar days after `now`'s date in that
format and parsing it back yields `N` up to the instant of evaluation —
exactly `N` when evaluated at midnight, `N - 1` at any strictly later
instant of the same day (the sub-day part of "now" is the only loss). -/
theorem C2_roundtrip_each_format (fmt : DateFormat) (dt : Date) (now : Instant)
    (N : Int) (hv : dt.valid) (hy : 1000 ≤ dt.year) (hs : now.sec < 86400)
    (hN : daysFromCivil dt = daysFromCivil now.date + N) :
    calculate_days_remaining (some (String.mk (strftimeFmt fmt dt))) now
      = some (if now.sec = 0 then N else N - 1) ∧
    (calculate_days_remaining (some (String.mk (strftimeFmt fmt dt))) now
        = some N ∨
     calculate_days_remaining (some (String.mk (strftimeFmt fmt dt))) now
        = some (N - 1)) := by
  have h := calculate_roundtrip fmt dt now N hv hy hs hN
  refine ⟨h, ?_⟩
  by_cases h0 : now.sec = 0
  · left; rw [h, if_pos h0]
  · right; rw [h, if_neg h0]

/-- Witness for C2: formatting `now.date + 3 days` and parsing it back
yields 3 at midnight and 2 one hour past midnight. -/
theorem C2_witness :
    calculate_days_remaining (some "10/15/2026") ⟨⟨2026, 10, 12⟩, 0⟩ = some 3 ∧
    calculate_days_remaining (some "2026-10-15") ⟨⟨2026, 10, 12⟩, 3600⟩ = some 2 := by
  have h1 := (C2_roundtrip_each_format .mdySlash ⟨2026, 10, 15⟩ ⟨⟨2026, 10, 12⟩, 0⟩ 3
    (by decide) (by decide) (by decide) (by decide)).1
  have h2 := (C2_roundtrip_each_format .isoYMD ⟨2026, 10, 15⟩ ⟨⟨2026, 10, 12⟩, 3600⟩ 3
    (by decide) (by decide) (by decide) (by decide)).1
  constructor
  · rw [show ("10/15/2026" : String)
      = String.mk (strftimeFmt .mdySlash ⟨2026, 10, 15⟩) from by decide]
    exact h1.trans (by decide)
  · rw [show ("2026-10-15" : String)
      = String.mk (strftimeFmt .isoYMD ⟨2026, 10, 15⟩) from by decide]
    exact h2.trans (by decide)

/-- C10: at any instant strictly after midnight, parsing a string that
denotes the current calendar date (in any supported format) yields `-1`,
not `0`, because the parsed date carries midnight while "now" carries the
elapsed time of day — so a compliance date falling due today is classified
OVERDUE rather than CRITICAL. -/
theorem C10_today_parses_to_minus_one (now : Instant) (fmt : DateFormat)
    (hv : now.date.valid) (hy : 1000 ≤ now.date.year)
    (h0 : 0 < now.sec) (hs : now.sec < 86400) :
    calculate_days_remaining (some (String.mk (strftimeFmt fmt now.date))) now
      = some (-1) ∧
    get_alert_status (calculate_days_remaining
      (some (String.mk (strftimeFmt fmt now.date))) now) = "OVERDUE" := by
  have h := calculate_roundtrip fmt now.date now 0 hv hy hs (by ring)
  rw [if_neg (by omega)] at h
  norm_num at h
  exact ⟨h, by rw [h]; rfl⟩

/-- Witness for C10: one second past midnight on 2026-10-12, the string
"10/12/2026" parses to -1 and is classified OVERDUE. -/
theorem C10_witness :
    calculate_days_remaining (some "10/12/2026") ⟨⟨2026, 10, 12⟩, 1⟩ = some (-1) ∧
    get_alert_status (some (-1)) = "OVERDUE" := by
  have h := C10_today_parses_to_minus_one ⟨⟨2026, 10, 12⟩, 1⟩ .mdySlash
    (by decide) (by decide) (by decide) (by decide)
  constructor
  · rw [show ("10/12/2026" : String)
      = String.mk (strftimeFmt .mdySlash ⟨2026, 10, 12⟩) from by decide]
    exact h.1
  · decide

/-! ### C5: the reconciliation loop and the label/positional mismatch -/

def rawC5 : Table := ⟨[⟨"TRUCK ID", [some "OLD", some "T-1"]⟩], [0, 1]⟩

def cleanC5 : Table := ⟨[⟨"TRUCK ID", [some "T-1"]⟩], [1]⟩

def vehiclesC5 : List VehicleRec := [⟨"vid", "T-1", "", "", none, none⟩]

/-- C5 failing input: cleaning a raw table whose junk `OLD` row precedes a
real row leaves the surviving row with pandas label 1 at position 0.
`find_excel_match` returns the *label* 1 (`matches.index[0]`) while
`extract_excel_data` indexes *positionally* (`iloc[1]`), which is out of
bounds for the 1-row table: the reconciliation pass raises `IndexError`
(modelled `none`) instead of producing the matched vehicle's record. -/
theorem C5_reconcile_raises_on_shifted_label :
    clean_excel_data rawC5 = some cleanC5 ∧
    find_excel_match "T-1" "" cleanC5 = some 1 ∧
    process_combined_data ⟨⟨2026, 10, 12⟩, 3600⟩ vehiclesC5 cleanC5 = none := by
  decide

/-! ### C9: meters-to-miles conversion -/

lemma pyRound_intCast (n : Int) : pyRound ((n : ℚ)) = n := by
  have hnum : ((n : ℚ)).num = n := Rat.intCast_num n
  have hden : ((n : ℚ)).den = 1 := Rat.intCast_den n
  unfold pyRound pyFloor
  rw [hnum, hden]
  norm_num

/-- The conversion exactly as the claim words it: `round(meters / 1609.34)`
when a value is present, 0 when absent. -/
def milesSpec (r : Option Reading) : Int :=
  match readingValue r with
  | some m => pyRound (m / ((160934 : ℚ) / 100))
  | none => 0

lemma milesOf_eq_spec (r : Option Reading) : milesOf r = milesSpec r := by
  unfold milesOf milesSpec
  cases hv : readingValue r with
  | none => rfl
  | some q =>
    show (if q = 0 then (0 : Int) else pyRound (q / ((160934 : ℚ) / 100)))
      = pyRound (q / ((160934 : ℚ) / 100))
    by_cases h0 : q = 0
    · subst h0
      rw [if_pos rfl, zero_div, show (0 : ℚ) = ((0 : Int) : ℚ) by norm_num,
        pyRound_intCast]
    · rw [if_neg h0]

lemma processAux_mem (now : Instant) (df : Table) :
    ∀ (s : List VehicleRec) (out : List Combined), processAux now df s = some out →
      ∀ c ∈ out, ∃ v ∈ s, ∃ e, c = mkCombined v e now := by
  intro s
  induction s with
  | nil =>
    intro out h c hc
    obtain rfl : ([] : List Combined) = out := Option.some.inj h
    simp at hc
  | cons v vs ih =>
    intro out h c hc
    unfold processAux at h
    cases hcomb : combineOne now df v with
    | none => rw [hcomb] at h; exact Option.noConfusion h
    | some o =>
      rw [hcomb] at h
      cases o with
      | none =>
        obtain ⟨v', hv', e, he⟩ := ih out h c hc
        exact ⟨v', List.mem_cons_of_mem _ hv', e, he⟩
      | some c0 =>
        cases hrest : processAux now df vs with
        | none => rw [hrest] at h; exact Option.noConfusion h
        | some rest =>
          rw [hrest] at h
          obtain rfl : c0 :: rest = out := Option.some.inj h
          rcases List.mem_cons.mp hc with rfl | hcr
          · unfold combineOne at hcomb
            cases hfind : find_excel_match v.name v.vin df with
            | none =>
              rw [hfind] at hcomb
              exact Option.noConfusion (Option.some.inj hcomb)
            | some idx =>
              rw [hfind] at hcomb
              obtain ⟨e, he1, he2⟩ := Option.map_eq_some'.mp hcomb
              exact ⟨v, List.mem_cons_self v vs, e, (Option.some.inj he2).symm⟩
          · obtain ⟨v', hv', e, he⟩ := ih rest hrest c hcr
            exact ⟨v', List.mem_cons_of_mem _ hv', e, he⟩

/-- C9: every record produced by a successful reconciliation pass carries, in
each of its two mileage fields, exactly `round(meters / 1609.34)` (as an
integer) of the corresponding reading when its value is present and 0 when
it is absent; in particular 160934 meters yield exactly 100 miles. -/
theorem C9_mileage_conversion :
    (∀ (now : Instant) (s : List VehicleRec) (df : Table) (out : List Combined),
      process_combined_data now s df = some out →
      ∀ c ∈ out, ∃ v ∈ s,
        c.OBD_Odometer_Miles = milesSpec v.obd ∧
        c.GPS_Distance_Miles = milesSpec v.gps) ∧
    milesSpec (some ⟨some 160934, ""⟩) = 100 := by
  constructor
  · intro now s df out h c hc
    unfold process_combined_data at h
    by_cases he : (s.isEmpty || df.isEmptyT) = true
    · rw [if_pos he] at h
      obtain rfl : ([] : List Combined) = out := Option.some.inj h
      simp at hc
    · rw [if_neg he] at h
      obtain ⟨v, hv, e, rfl⟩ := processAux_mem now df s out h c hc
      exact ⟨v, hv, milesOf_eq_spec v.obd, milesOf_eq_spec v.gps⟩
  · show pyRound ((160934 : ℚ) / ((160934 : ℚ) / 100)) = 100
    rw [show (160934 : ℚ) / ((160934 : ℚ) / 100) = ((100 : Int) : ℚ) by norm_num,
      pyRound_intCast]

def vsC9w : List VehicleRec := [⟨"vid", "T-1", "", "", some ⟨none, "t"⟩, none⟩]

def dfC9w : Table := ⟨[⟨"TRUCK ID", [some "T-1"]⟩], [0]⟩

def cC9w : Combined :=
  ⟨"vid", "T-1", "", "", 0, 0, "t", "", "", "", none, "", none, "", none,
   "No Data", "No Data", "No Data"⟩

/-- Witness for C9: a concrete reconciliation pass (value-less readings, so
both mileage fields are 0). -/
theorem C9_witness :
    ∃ v ∈ vsC9w, cC9w.OBD_Odometer_Miles = milesSpec v.obd ∧
      cC9w.GPS_Distance_Miles = milesSpec v.gps :=
  C9_mileage_conversion.1 ⟨⟨2026, 10, 12⟩, 0⟩ vsC9w dfC9w [cC9w] (by decide)
    cC9w (by decide)

/-!
### Concrete validation of the embedding

A few closed evaluations checking the model against hand-computed Python
behaviour (format priority, `strptime` range checks, the civil-day count,
and the spec's end-to-end scenario).
-/

example : tryFormats "10/15/2026".data = some ⟨2026, 10, 15⟩ := by decide

example : tryFormats "2026-10-15".data = some ⟨2026, 10, 15⟩ := by decide

example : tryFormats "15.10.2026".data = some ⟨2026, 10, 15⟩ := by decide

example : tryFormats "10-15-2026".data = some ⟨2026, 10, 15⟩ := by decide

example : tryFormats "banana".data = none := by decide

example : tryFormats "02/30/2024".data = none := by decide

example : daysFromCivil ⟨1970, 1, 1⟩ = 0 := by decide

example : daysFromCivil ⟨2026, 10, 12⟩ = 20738 := by decide

example :
    process_combined_data ⟨⟨2026, 10, 12⟩, 3600⟩
      [⟨"vid", "T-1", "", "", none, none⟩]
      ⟨[⟨"TRUCK_ID", [some "T-1"]⟩, ⟨"STATUS", [some "Active"]⟩,
        ⟨"ANNUAL_DATE", [some "01/01/2020"]⟩], [0]⟩
      = some [⟨"vid", "T-1", "", "", 0, 0, "", "", "Active", "01/01/2020",
          some (-2477), "", none, "", none, "OVERDUE", "No Data", "No Data"⟩] := by
  decide
